import Mathlib

/-!
Verification of the semantic-layer enrichment pipeline.

Shallow embedding of the Python services of the repository:
column classifier (column_type_detector.py), geographic detector
(geographic_detector.py), alias/description rule-based generator
(alias_generator.py), relationship persistence
(dynamodb_relationships.py), the auto-completion sweep worker
(worker_auto_completion.py), the metadata generator
(metadata_generator.py) and the Neptune exporter (neptune_service.py).

Numeric sample statistics use exact rationals as the model of Python
floats; the claims under study stay far from representation boundaries.
External collaborators (warehouse, LLMs, geocoder, json library,
pycountry data) are modelled as explicit oracle parameters.
-/

namespace SemanticLayer

/-! String primitives.  The Lean core byte-position routines
(`String.toLower`, `String.trim`, ...) do not reduce inside the kernel,
so the Python string operations are modelled directly on character
lists.  Case mapping is ASCII, which covers every string the embedded
services compare. -/

/-- Python `str.lower()` (ASCII). -/
def pyLower (s : String) : String :=
  String.mk (s.data.map Char.toLower)

/-- Python `str.upper()` (ASCII). -/
def pyUpper (s : String) : String :=
  String.mk (s.data.map Char.toUpper)

/-- First list is a prefix of the second. -/
def isPrefixCh : List Char → List Char → Bool
  | [], _ => true
  | _ :: _, [] => false
  | a :: as, b :: bs => a = b && isPrefixCh as bs

/-- Python substring test: `pat in s`. -/
def strContains (s pat : String) : Bool :=
  decide (pat.data <:+: s.data)

/-- Python `s.startswith(pat)`. -/
def pyStartsWith (s pat : String) : Bool :=
  isPrefixCh pat.data s.data

/-- Python `s.endswith(pat)`. -/
def pyEndsWith (s pat : String) : Bool :=
  isPrefixCh pat.data.reverse s.data.reverse

/-- Python `str.strip()`: trim whitespace on both ends. -/
def pyStrip (s : String) : String :=
  String.mk (((s.data.dropWhile Char.isWhitespace).reverse.dropWhile Char.isWhitespace).reverse)

/-- Python `str.split(c)` on a single separator character (keeps empty
pieces, unlike the no-argument form). -/
def splitChAux (c : Char) : List Char → List Char → List String
  | [], acc => [String.mk acc.reverse]
  | x :: xs, acc =>
    if x = c then String.mk acc.reverse :: splitChAux c xs []
    else splitChAux c xs (x :: acc)

def pySplitCh (s : String) (c : Char) : List String :=
  splitChAux c s.data []

/-- Python `str.replace(old, new)`: every non-overlapping occurrence,
left to right.  Fuel is the input length, enough because each step
consumes at least one character (the services never call it with an
empty pattern). -/
def replFuel (old new : List Char) : Nat → List Char → List Char
  | 0, s => s
  | _ + 1, [] => []
  | fuel + 1, c :: rest =>
    if !old.isEmpty && isPrefixCh old (c :: rest) then
      new ++ replFuel old new fuel ((c :: rest).drop old.length)
    else
      c :: replFuel old new fuel rest

def pyReplace (s old new : String) : String :=
  String.mk (replFuel old.data new.data s.data.length s.data)

/-- Python `str.capitalize()`: first character uppercased, the rest
lowercased. -/
def pyCapitalize (s : String) : String :=
  match s.data with
  | [] => ""
  | c :: cs => String.mk (c.toUpper :: cs.map Char.toLower)

/-- Python `str.title()`: start of every alphabetic run uppercased, the
rest of the run lowercased. -/
def titleAux : List Char → Bool → List Char
  | [], _ => []
  | c :: r, prevAlpha =>
    (if c.isAlpha then (if prevAlpha then c.toLower else c.toUpper) else c)
      :: titleAux r c.isAlpha

def pyTitle (s : String) : String :=
  String.mk (titleAux s.data false)

/-- Python `sep.join(xs)`. -/
def joinWith (sep : String) : List String → String
  | [] => ""
  | [x] => x
  | x :: y :: xs => x ++ sep ++ joinWith sep (y :: xs)

/-- Python `any(p in s for p in pats)`. -/
def containsAny (s : String) (pats : List String) : Bool :=
  pats.any (fun p => strContains s p)

/-- Python slice `s[:n]` on strings (character based). -/
def pyTake (s : String) (n : Nat) : String :=
  String.mk (s.data.take n)

/-- Python `str.split()` with no argument: split on whitespace runs,
dropping empty pieces. -/
def splitWsAux : List Char → List Char → List String
  | [], acc => if acc.isEmpty then [] else [String.mk acc.reverse]
  | c :: rest, acc =>
    if c.isWhitespace then
      if acc.isEmpty then splitWsAux rest []
      else String.mk acc.reverse :: splitWsAux rest []
    else splitWsAux rest (c :: acc)

def pySplitWsCh (s : String) : List String :=
  splitWsAux s.data []

/-! ## Python sample values

Sampled cell values reach the services as arbitrary Python objects
(`List[Any]`).  The embedding covers the shapes the pipeline actually
ships: nulls, strings and numbers, with numbers as exact rationals. -/

inductive PyVal
  | vNone
  | vStr (s : String)
  | vInt (n : Int)
  | vFloat (q : ℚ)
deriving DecidableEq, Repr

/-- Python truthiness (`if not val`). -/
def pyTruthy : PyVal → Bool
  | PyVal.vNone => false
  | PyVal.vStr s => !(s = "")
  | PyVal.vInt n => !(n = 0)
  | PyVal.vFloat q => !(q = 0)

/-- Python `str(val)` for the embedded value shapes.  The rational
printout stands in for the float repr; every claim investigated here
feeds `str` only with string samples. -/
def pyStr : PyVal → String
  | PyVal.vNone => "None"
  | PyVal.vStr s => s
  | PyVal.vInt n => toString n
  | PyVal.vFloat q => toString q

/-- Exceptions the embedded code can raise. -/
inductive PyErr
  | valueError (msg : String)
  | typeError (msg : String)
deriving DecidableEq, Repr

instance {ε α : Type} [DecidableEq ε] [DecidableEq α] : DecidableEq (Except ε α) := fun a b =>
  match a, b with
  | Except.ok x, Except.ok y =>
    if h : x = y then Decidable.isTrue (by rw [h]) else Decidable.isFalse (by simp [h])
  | Except.error x, Except.error y =>
    if h : x = y then Decidable.isTrue (by rw [h]) else Decidable.isFalse (by simp [h])
  | Except.ok _, Except.error _ => Decidable.isFalse (by simp)
  | Except.error _, Except.ok _ => Decidable.isFalse (by simp)

def digitsVal (ds : List Char) : Nat :=
  ds.foldl (fun a c => a * 10 + (c.toNat - 48)) 0

/-- Model of CPython float-literal parsing for plain decimal forms
(optional sign, digits, optional fraction); scientific notation and the
inf/nan words are not produced by the pipeline and are rejected like any
other unparseable text. -/
def parseFloatQ (s : String) : Option ℚ :=
  let cs := (pyStrip s).data
  let signed : Bool × List Char :=
    match cs with
    | '-' :: r => (true, r)
    | '+' :: r => (false, r)
    | r => (false, r)
  let neg := signed.1
  let rest := signed.2
  let intPart := rest.takeWhile Char.isDigit
  let rest₂ := rest.drop intPart.length
  let mag : Option (Int × Nat) :=
    match rest₂ with
    | [] => if intPart.isEmpty then none else some ((digitsVal intPart : Int), 1)
    | '.' :: frac =>
      let fracD := frac.takeWhile Char.isDigit
      if frac.length ≠ fracD.length then none
      else if intPart.isEmpty && fracD.isEmpty then none
      else some (((digitsVal intPart * 10 ^ fracD.length + digitsVal fracD : Nat) : Int),
        10 ^ fracD.length)
    | _ => none
  match mag with
  | none => none
  | some nd => some (mkRat (if neg then -nd.1 else nd.1) nd.2)

/-- Python `float(val)`. -/
def pyFloat : PyVal → Except PyErr ℚ
  | PyVal.vFloat q => Except.ok q
  | PyVal.vInt n => Except.ok (mkRat n 1)
  | PyVal.vNone =>
    Except.error (PyErr.typeError "float() argument must be a string or a real number, not NoneType")
  | PyVal.vStr s =>
    match parseFloatQ s with
    | some q => Except.ok q
    | none => Except.error (PyErr.valueError ("could not convert string to float: " ++ s))

/-! ## Column classifier (`app/services/column_type_detector.py`) -/

def DIMENSION_THRESHOLD : Nat := 20

def PRIMARY_ID_PATTERNS : List String :=
  ["link_id", "road_id", "uuid", "guid", "pk", "primary"]

def FOREIGN_KEY_PATTERNS : List String :=
  ["pvid", "fk", "ref_id", "parent_id"]

def IDENTIFIER_PATTERNS : List String :=
  ["id", "key", "code"]

def MEASURE_KEYWORDS : List String :=
  ["kms", "kilometers", "distance", "length", "count", "total", "sum",
   "avg", "amount", "value", "price", "cost", "rate", "latitude",
   "longitude", "lat", "lon", "coord"]

def NUMERIC_TYPES : List String :=
  ["bigint", "integer", "smallint", "tinyint", "double", "float",
   "real", "decimal", "numeric"]

def TIMESTAMP_TYPES : List String :=
  ["timestamp", "date", "datetime", "time"]

/-- `ColumnTypeDetector._is_numeric_type`. -/
def is_numeric_type (data_type : String) : Bool :=
  containsAny data_type NUMERIC_TYPES

/-- The inline timestamp test of `detect_column_type` step 1:
`any(ts in type_lower for ts in TIMESTAMP_TYPES)`. -/
def has_timestamp_type (type_lower : String) : Bool :=
  containsAny type_lower TIMESTAMP_TYPES

/-- `ColumnTypeDetector._is_primary_identifier`.  The Python early
returns are flattened into nested conditionals with the same value. -/
def is_primary_identifier (col_name : String) (cardinality row_count : Nat) : Bool :=
  let has_primary_pattern := containsAny col_name PRIMARY_ID_PATTERNS
  let has_id_pattern := containsAny col_name IDENTIFIER_PATTERNS
  if !(has_primary_pattern || has_id_pattern) then false
  else if decide (0 < row_count) && decide (mkRat cardinality row_count > mkRat 8 10) then true
  else decide (cardinality > 1000)

/-- `ColumnTypeDetector._is_foreign_key_dimension`. -/
def is_foreign_key_dimension (col_name : String) (cardinality row_count : Nat) : Bool :=
  let has_fk_pattern := containsAny col_name FOREIGN_KEY_PATTERNS
  let has_id_pattern := containsAny col_name IDENTIFIER_PATTERNS
  if !(has_fk_pattern || has_id_pattern) then false
  else if decide (0 < row_count) && decide (mkRat cardinality row_count < mkRat 8 10)
          && decide (cardinality < 1000) then true
  else decide (cardinality ≤ 100)

/-- `ColumnTypeDetector._is_measure`. -/
def is_measure (col_name data_type : String) (cardinality : Nat) : Bool :=
  if !is_numeric_type data_type then false
  else if containsAny col_name MEASURE_KEYWORDS then true
  else decide (cardinality > DIMENSION_THRESHOLD)

/-- `ColumnTypeDetector._is_detail`. -/
def is_detail (data_type : String) (cardinality : Nat) : Bool :=
  if is_numeric_type data_type then false
  else decide (cardinality > 100)

/-- `ColumnTypeDetector.detect_column_type`. -/
def detect_column_type (column_name data_type : String) (cardinality row_count : Nat) : String :=
  let col_lower := pyLower column_name
  let type_lower := pyLower data_type
  if has_timestamp_type type_lower then "timestamp"
  else if is_primary_identifier col_lower cardinality row_count then "identifier"
  else if is_foreign_key_dimension col_lower cardinality row_count then "dimension"
  else if is_measure col_lower type_lower cardinality then "measure"
  else if decide (cardinality ≤ DIMENSION_THRESHOLD) then "dimension"
  else if is_detail type_lower cardinality then "detail"
  else if is_numeric_type type_lower then "measure"
  else "dimension"

/-! ## Status enums (`app/models/table.py`) -/

inductive EnrichmentStatus
| not_started
| in_progress
| completed
| failed
deriving DecidableEq, Repr

inductive RelationshipDetectionStatus
| not_started
| in_progress
| completed
| failed
deriving DecidableEq, Repr

inductive NeptuneImportStatus
| not_imported
| importing
| imported
| failed
deriving DecidableEq, Repr

inductive SchemaStatus
| current
| schema_changed
deriving DecidableEq, Repr

/-- `TableMetadata` (app/models/table.py); timestamps modelled as opaque
strings, `datetime` values are never computed with. -/
structure TableMetadata where
  catalog_schema_table : String
  last_updated : String
  row_count : Nat := 0
  column_count : Nat := 0
  schema_status : SchemaStatus := SchemaStatus.current
  enrichment_status : EnrichmentStatus := EnrichmentStatus.not_started
  relationship_detection_status : RelationshipDetectionStatus := RelationshipDetectionStatus.not_started
  neptune_import_status : NeptuneImportStatus := NeptuneImportStatus.not_imported
  enrichment_timestamp : Option String := none
  relationship_timestamp : Option String := none
  neptune_import_timestamp : Option String := none
  enrichment_retry_count : Nat := 0
  relationship_retry_count : Nat := 0
  neptune_retry_count : Nat := 0
  enrichment_error : Option String := none
  relationship_error : Option String := none
  neptune_import_error : Option String := none
deriving DecidableEq, Repr

/-! ## Sweep worker predicates (`scripts/worker_auto_completion.py`) -/

def MAX_RETRIES : Nat := 3

/-- `should_process_enrichment`. -/
def should_process_enrichment (t : TableMetadata) : Bool :=
  if t.enrichment_status = EnrichmentStatus.in_progress then false
  else if decide (t.enrichment_retry_count ≥ MAX_RETRIES) then false
  else if t.enrichment_status = EnrichmentStatus.not_started
          ∨ t.enrichment_status = EnrichmentStatus.failed then true
  else false

/-- `should_process_relationships`. -/
def should_process_relationships (t : TableMetadata) : Bool :=
  if t.enrichment_status ≠ EnrichmentStatus.completed then false
  else if t.relationship_detection_status = RelationshipDetectionStatus.in_progress then false
  else if decide (t.relationship_retry_count ≥ MAX_RETRIES) then false
  else if t.relationship_detection_status = RelationshipDetectionStatus.not_started
          ∨ t.relationship_detection_status = RelationshipDetectionStatus.failed then true
  else false

/-- `should_process_neptune`. -/
def should_process_neptune (t : TableMetadata) : Bool :=
  if t.enrichment_status ≠ EnrichmentStatus.completed then false
  else if t.neptune_import_status = NeptuneImportStatus.importing then false
  else if decide (t.neptune_retry_count ≥ MAX_RETRIES) then false
  else if t.neptune_import_status = NeptuneImportStatus.not_imported
          ∨ t.neptune_import_status = NeptuneImportStatus.failed then true
  else false

/-! ## Embedding padding (`app/services/neptune_service.py`) -/

/-- `pad_embedding_to_2048`; the `raise ValueError` is the `Except.error`
branch.  Vector entries are modelled as rationals: the function only
copies entries and appends literal zeros, no float arithmetic happens. -/
def pad_embedding_to_2048 (embedding_1536 : List ℚ) : Except String (List ℚ) :=
  if embedding_1536.length ≠ 1536 then
    Except.error ("Expected 1536 dimensions, got " ++ toString embedding_1536.length)
  else
    Except.ok (embedding_1536 ++ List.replicate (2048 - 1536) (0 : ℚ))

/-! ## Worker enrichment pass (`scripts/worker_auto_completion.py`,
`process_enrichment`) together with the method surface of
`MetadataGenerator` (`app/services/metadata_generator.py`). -/

/-- The public and private callables defined on `MetadataGenerator`. -/
def metadataGeneratorMethods : List String :=
  ["generate_metadata_for_table", "generate_metadata_for_all_tables",
   "refresh_metadata_for_table"]

/-- The `str(e)[:500]` truncation applied to recorded error text. -/
def truncate500 (s : String) : String :=
  String.mk (s.data.take 500)

/-- The `except` branch of `process_enrichment`: re-read the record
(whose status was already flipped to IN_PROGRESS), bump the retry count
and persist FAILED plus the truncated error text. -/
def enrichmentFailure (tm₁ : TableMetadata) (err : String) : Bool × TableMetadata :=
  let new_retry_count := tm₁.enrichment_retry_count + 1
  (false,
    { tm₁ with
        enrichment_status := EnrichmentStatus.failed
        enrichment_retry_count := new_retry_count
        enrichment_error := some (truncate500 err) })

/-- `process_enrichment`.  The body sets IN_PROGRESS, validates the
three-part name, then calls `metadata_generator.generate_metadata`;
Python attribute resolution on the missing name raises AttributeError,
so the call site is modelled as a lookup in
`metadataGeneratorMethods`. -/
def process_enrichment (now : String) (catalog_schema_table : String)
    (tm : TableMetadata) : Bool × TableMetadata :=
  let tm₁ := { tm with enrichment_status := EnrichmentStatus.in_progress }
  let parts := pySplitCh catalog_schema_table '.'
  if parts.length ≠ 3 then
    enrichmentFailure tm₁ ("Invalid table name format: " ++ catalog_schema_table)
  else if metadataGeneratorMethods.contains "generate_metadata" then
    (true,
      { tm₁ with
          enrichment_status := EnrichmentStatus.completed
          enrichment_timestamp := some now
          enrichment_error := none })
  else
    enrichmentFailure tm₁
      "'MetadataGenerator' object has no attribute 'generate_metadata'"

/-! ## Relationship persistence (`app/services/dynamodb_relationships.py`) -/

/-- One proposal coming out of the Relationship Inferencer, as consumed
by `store_relationships_batch`. -/
structure RelationshipProposal where
  source_table : String
  source_column : String
  target_table : String
  target_column : String
  relationship_type : String
  confidence : ℚ
  reasoning : String := ""
  relationship_subtype : Option String := none
deriving DecidableEq, Repr

/-- The DynamoDB item written per proposal.  `relationship_id` models
the fresh `uuid.uuid4()` by an id drawn from an injective supply. -/
structure RelationshipRecord where
  relationship_id : Nat
  source_table : String
  source_column : String
  target_table : String
  target_column : String
  relationship_type : String
  confidence : ℚ
  reasoning : String
  detected_by : String
  relationship_subtype : Option String
deriving DecidableEq, Repr

/-- Item construction inside the `store_relationships_batch` loop; an
empty-string subtype is dropped by the Python truthiness test. -/
def mkStoredItem (id : Nat) (rel : RelationshipProposal) : RelationshipRecord :=
  { relationship_id := id
    source_table := rel.source_table
    source_column := rel.source_column
    target_table := rel.target_table
    target_column := rel.target_column
    relationship_type := rel.relationship_type
    confidence := rel.confidence
    reasoning := rel.reasoning
    detected_by := "gpt-5"
    relationship_subtype :=
      match rel.relationship_subtype with
      | some s => if s = "" then none else some s
      | none => none }

def storeBatchAux (next_id : Nat) : List RelationshipProposal → List RelationshipRecord × Nat
  | [] => ([], 0)
  | rel :: rest =>
    let tail := storeBatchAux (next_id + 1) rest
    (mkStoredItem next_id rel :: tail.1, tail.2 + 1)

/-- `store_relationships_batch`: returns the items put into the table
and the reported `stored_count`. -/
def store_relationships_batch (next_id : Nat)
    (relationships : List RelationshipProposal) : List RelationshipRecord × Nat :=
  storeBatchAux next_id relationships

/-- Lexicographic order on character data (Python string comparison). -/
def listLtCh : List Char → List Char → Bool
  | [], [] => false
  | [], _ :: _ => true
  | _ :: _, [] => false
  | a :: as, b :: bs => if a = b then listLtCh as bs else decide (a < b)

def strLtCh (a b : String) : Bool :=
  listLtCh a.data b.data

def endpointLe (a b : String × String) : Bool :=
  if a.1 = b.1 then strLtCh a.2 b.2 || decide (a.2 = b.2)
  else strLtCh a.1 b.1

/-- Modelled from the spec: the §3 canonical dedup key of a
RelationshipRecord — the unordered pair of (table, column) endpoints
plus the relationship type.  No such key exists in the source; it is
stated here to compare the spec against what the store actually does. -/
def record_canonical_key (r : RelationshipRecord) :
    (String × String) × (String × String) × String :=
  let s := (r.source_table, r.source_column)
  let t := (r.target_table, r.target_column)
  if endpointLe s t then (s, t, r.relationship_type)
  else (t, s, r.relationship_type)

/-! ## Rule-based naming fallback (`app/services/alias_generator.py`) -/

/-- The abbreviation dictionary of `AliasGenerator.__init__`. -/
def abbreviations : List (String × String) :=
  [("addr", "Address"), ("amt", "Amount"), ("avg", "Average"),
   ("qty", "Quantity"), ("cust", "Customer"), ("desc", "Description"),
   ("dept", "Department"), ("emp", "Employee"), ("lat", "Latitude"),
   ("lon", "Longitude"), ("lng", "Longitude"), ("max", "Maximum"),
   ("min", "Minimum"), ("num", "Number"), ("pct", "Percentage"),
   ("std", "Standard"), ("temp", "Temperature"), ("ts", "Timestamp"),
   ("ttl", "Total"), ("cnt", "Count"), ("id", "ID"), ("cd", "Code"),
   ("dt", "Date"), ("tm", "Time"), ("val", "Value"), ("ref", "Reference"),
   ("seq", "Sequence"), ("src", "Source"), ("dst", "Destination"),
   ("pos", "Position"), ("dir", "Direction"), ("dist", "Distance"),
   ("coord", "Coordinate"), ("geo", "Geographic"), ("usd", "USD"),
   ("eur", "EUR"), ("gbp", "GBP"), ("pvid", "ID"),
   ("admin", "Administrative"), ("km", "Kilometers"),
   ("kms", "Kilometers"), ("poi", "POI"), ("h24x7", "24/7 Hours")]

/-- The split of `re.split` on `[_\-]` or a lowercase-to-uppercase
camel-case boundary. -/
def splitNamePartsAux : List Char → List Char → List String
  | [], acc => [String.mk acc.reverse]
  | c :: rest, acc =>
    if c = '_' || c = '-' then
      String.mk acc.reverse :: splitNamePartsAux rest []
    else
      match rest with
      | c₂ :: _ =>
        if c.isLower && c₂.isUpper then
          String.mk (c :: acc).reverse :: splitNamePartsAux rest []
        else splitNamePartsAux rest (c :: acc)
      | [] => splitNamePartsAux rest (c :: acc)

def splitNameParts (s : String) : List String :=
  splitNamePartsAux s.data []

def expandPart (part : String) : String :=
  match abbreviations.lookup (pyLower part) with
  | some v => v
  | none => pyCapitalize part

def wordCountWs (s : String) : Nat :=
  (pySplitWsCh s).length

/-- The final dedup loop of `_generate_aliases_rule_based`: keep order,
drop repeats and entries longer than six words. -/
def dedupKeepAux : List String → List String → List String
  | [], _ => []
  | a :: rest, seen =>
    if !seen.contains a && decide (wordCountWs a ≤ 6) then
      a :: dedupKeepAux rest (a :: seen)
    else dedupKeepAux rest seen

/-- `AliasGenerator._generate_aliases_rule_based`. -/
def generate_aliases_rule_based (column_name : String) (tags : List String) : List String :=
  let col_lower := pyLower column_name
  let parts := splitNameParts column_name
  let expanded_parts := parts.map expandPart
  let base_alias := joinWith " " expanded_parts
  let aliases := [base_alias]
  let aliases := aliases ++
    (if strContains col_lower "pvid" || strContains col_lower "_id"
        || pyEndsWith col_lower "id" then
      [pyReplace (pyReplace base_alias "Pvid" "Identifier") " Id" " Identifier",
       pyReplace (pyReplace base_alias "Pvid" "Code") " Id" " Code"]
    else [])
  let aliases := aliases ++
    (if strContains col_lower "admin" then
      (if strContains col_lower "l1" || strContains col_lower "level1" then
        ["Province Identifier", "Level 1 Region ID", "State Code"]
      else if strContains col_lower "l2" || strContains col_lower "level2" then
        ["Province Name", "State Name", "Level 2 Region"]
      else if strContains col_lower "l3" || strContains col_lower "level3" then
        ["City Name", "Municipality", "Level 3 Region"]
      else if strContains col_lower "l4" || strContains col_lower "level4" then
        ["District Name", "Locality", "Level 4 Region"]
      else [])
    else [])
  let aliases := aliases ++
    (if strContains col_lower "km" || strContains col_lower "kilometer" then
      ["Distance (km)", "Length in Kilometers", "Total Distance"]
    else [])
  let aliases := aliases ++
    (if !tags.isEmpty then
      (if tags.contains "latitude" then
        ["Latitude Coordinate", "Lat", "North-South Position"] else []) ++
      (if tags.contains "longitude" then
        ["Longitude Coordinate", "Lon", "East-West Position"] else []) ++
      (if tags.contains "country" then
        ["Country Name", "Nation", "Country Code"] else []) ++
      (if tags.contains "city" then ["City Name"] else []) ++
      (if tags.contains "province" then ["Province Name", "State Name"] else []) ++
      (if tags.contains "district" then ["District Name", "Locality Name"] else [])
    else [])
  let aliases := aliases ++
    (if strContains col_lower "class" || strContains col_lower "type" then
      [base_alias ++ " Category", base_alias ++ " Type"]
    else [])
  (dedupKeepAux aliases []).take 5

/-- The classification branch of the template-based description: the
base text, plus the category count when `cardinality` is truthy and
below 20.  The Python local `desc` is inlined into each outcome. -/
def class_type_description (column_name : String) (cardinality : Option Nat) : String :=
  match cardinality with
  | some c =>
    if c ≠ 0 ∧ c < 20 then
      "Classification or category for "
        ++ pyStrip (pyReplace (pyReplace (pyReplace column_name "_" " ") "class" "") "type" "")
        ++ "." ++ " Contains " ++ toString c ++ " distinct categories."
    else
      "Classification or category for "
        ++ pyStrip (pyReplace (pyReplace (pyReplace column_name "_" " ") "class" "") "type" "")
        ++ "."
  | none =>
    "Classification or category for "
      ++ pyStrip (pyReplace (pyReplace (pyReplace column_name "_" " ") "class" "") "type" "")
      ++ "."

/-- Body of `AliasGenerator._generate_description_template_based` with
the `col_lower` local bound as a parameter. -/
def gen_description_template_core (column_name data_type col_lower : String)
    (tags : List String) (cardinality : Option Nat) : String :=
  if containsAny col_lower ["pvid", "_id", "uuid", "guid"]
      || tags.contains "identifier" then
    if strContains col_lower "admin" || tags.contains "administrative_region" then
      if strContains col_lower "l1" || strContains col_lower "level1"
          || tags.contains "province" then
        "Unique identifier for top-level administrative regions such as provinces or states."
      else if strContains col_lower "l2" || strContains col_lower "level2" then
        "Unique identifier for second-level administrative divisions."
      else if strContains col_lower "l3" || strContains col_lower "level3"
          || tags.contains "city" then
        "Unique identifier for third-level administrative areas such as cities or municipalities."
      else if strContains col_lower "l4" || strContains col_lower "level4"
          || tags.contains "district" then
        "Unique identifier for fourth-level administrative areas such as districts or localities."
      else "Unique identifier for an administrative region."
    else
      "Unique identifier for the "
        ++ pyStrip (pyReplace (pyReplace (pyReplace column_name "_" " ") "pvid" "") "id" "")
        ++ " entity."
  else if tags.contains "latitude" then
    "Geographic coordinate representing the north-south position, measured in decimal degrees (-90 to +90)."
  else if tags.contains "longitude" then
    "Geographic coordinate representing the east-west position, measured in decimal degrees (-180 to +180)."
  else if tags.contains "country" then
    "Country name or ISO country code identifying the nation where the record applies."
  else if tags.contains "province"
      || (strContains col_lower "admin"
          && (strContains col_lower "level2" || strContains col_lower "l2")) then
    "Name of the province, state, or first-level administrative division."
  else if tags.contains "city"
      || (strContains col_lower "admin"
          && (strContains col_lower "level3" || strContains col_lower "l3")) then
    "Name of the city, town, or municipality."
  else if tags.contains "district"
      || (strContains col_lower "admin"
          && (strContains col_lower "level4" || strContains col_lower "l4")) then
    "Name of the district, locality, or sub-municipal administrative area."
  else if strContains col_lower "km" || strContains col_lower "kilometer" then
    "Total distance or length measured in kilometers."
  else if strContains col_lower "class" || strContains col_lower "type" then
    class_type_description column_name cardinality
  else if strContains col_lower "date"
      || ["timestamp", "date", "datetime"].contains (pyLower data_type) then
    if strContains col_lower "change" || strContains col_lower "update"
        || strContains col_lower "modified" then
      "Date and time when the record was last changed or updated."
    else if strContains col_lower "create" || strContains col_lower "insert" then
      "Date and time when the record was created or inserted."
    else "Date and time value for " ++ pyReplace column_name "_" " " ++ "."
  else
    pyTitle (pyReplace column_name "_" " ") ++ " value stored as " ++ data_type ++ "."

/-- `AliasGenerator._generate_description_template_based`.  The Python
`cardinality` argument is `Optional[int]`; `none` models `None`. -/
def generate_description_template_based (column_name data_type : String)
    (tags : List String) (cardinality : Option Nat) : String :=
  gen_description_template_core column_name data_type (pyLower column_name) tags cardinality

/-! ## Column records and the Neptune export filter
(`app/models/column.py`, `app/services/neptune_service.py`) -/

/-- `ColumnMetadata` (app/models/column.py). -/
structure ColumnMetadata where
  catalog_schema_table : String
  column_name : String
  data_type : String
  column_type : String
  semantic_type : Option String := none
  aliases : List String := []
  description : String := ""
  min_value : Option PyVal := none
  max_value : Option PyVal := none
  avg_value : Option ℚ := none
  cardinality : Nat := 0
  null_count : Nat := 0
  null_percentage : ℚ := 0
  sample_values : List PyVal := []
deriving DecidableEq, Repr

/-- The step-3 loop of `import_table_to_neptune`: builds `columns_dict`
and `non_stats_columns` from the stored column records. -/
def importColumnFilter (all_columns : List ColumnMetadata) :
    List (String × ColumnMetadata) × List ColumnMetadata :=
  all_columns.foldl
    (fun acc col => ((col.column_name, col) :: acc.1, acc.2 ++ [col]))
    ([], [])

/-- The step-7 loop of `import_table_to_neptune`: one column node per
entry of `non_stats_columns`, skipping columns whose embedding or node
write fails (`node_ok` is the oracle for those external calls). -/
def import_created_column_nodes (node_ok : String → Bool)
    (all_columns : List ColumnMetadata) : List String :=
  (((importColumnFilter all_columns).2).filter
    (fun c => node_ok c.column_name)).map (fun c => c.column_name)

/-! ## Geographic detector (`app/services/geographic_detector.py`)

External collaborators are oracle parameters: the Nominatim geocoder,
the stdlib `json.loads`, and the pycountry data set. -/

def GEOMETRY_TYPES : List String :=
  ["point", "linestring", "polygon", "multipoint", "multilinestring",
   "multipolygon", "geometrycollection"]

/-- Outcome of one call of `geolocator.geocode`: a location, no
location, a `GeocoderTimedOut`/`GeocoderUnavailable`, or any other
exception. -/
inductive GeoOutcome
  | found
  | notFound
  | timeout
  | failure
deriving DecidableEq, Repr

/-- Parsed JSON value for the `json.loads` oracle. -/
inductive PyJson
  | jNull
  | jBool (b : Bool)
  | jNum (q : ℚ)
  | jStr (s : String)
  | jArr (xs : List PyJson)
  | jObj (fields : List (String × PyJson))
deriving Repr

/-- The pycountry data the detector loads in `__init__`. -/
structure CountryDB where
  countries : List String
  country_codes_alpha2 : List String
  country_codes_alpha3 : List String

/-- The external collaborators of one `GeographicDetector` instance. -/
structure DetectorEnv where
  geocode : String → GeoOutcome
  jsonLoads : String → Option PyJson
  db : CountryDB

/-- Python `max(a, b)` on numbers. -/
def pyMaxQ (a b : ℚ) : ℚ :=
  if decide (b ≤ a) then a else b

/-- Python `min(a, b)` on numbers. -/
def pyMinQ (a b : ℚ) : ℚ :=
  if decide (a ≤ b) then a else b

/-- `GeographicDetector._is_geometry_type_column`. -/
def is_geometry_type_column (col_name : String) (sample_values : List PyVal) : Bool :=
  let type_keywords := ["geo_type", "geotype", "geometry_type", "geom_type", "shape_type"]
  if !containsAny col_name type_keywords then false
  else if sample_values.isEmpty then false
  else
    let slice := sample_values.take 20
    let match_count := (slice.filter (fun v =>
      pyTruthy v && GEOMETRY_TYPES.contains (pyLower (pyStrip (pyStr v))))).length
    decide (mkRat match_count 1 ≥ mkRat (3 * slice.length) 10)

/-- `GeographicDetector._is_geojson_column`.  A parsed object whose
`type` value is not a string raises AttributeError at `.lower()`, which
the loop catches and skips, exactly like a parse failure. -/
def is_geojson_column (jsonLoads : String → Option PyJson)
    (col_name data_type : String) (sample_values : List PyVal) : Bool :=
  let geojson_keywords := ["geojson", "geo_json", "json_geometry"]
  let has_name_hint := containsAny col_name geojson_keywords
  let geometry_keywords := ["geometry", "geom", "shape", "location"]
  let has_geometry_hint := containsAny col_name geometry_keywords
  if !(has_name_hint || has_geometry_hint) then false
  else
    let data_type_upper := pyUpper data_type
    let is_valid_type := ["VARCHAR", "STRING", "TEXT", "JSON"].any
      (fun t => strContains data_type_upper t)
    if !is_valid_type then false
    else if sample_values.isEmpty then false
    else
      let slice := sample_values.take 10
      let valid_count := (slice.filter (fun v =>
        pyTruthy v &&
        (match jsonLoads (pyStrip (pyStr v)) with
         | some (PyJson.jObj fields) =>
           (fields.lookup "type").isSome && (fields.lookup "coordinates").isSome &&
           (match fields.lookup "type" with
            | some (PyJson.jStr ts) => GEOMETRY_TYPES.contains (pyLower ts)
            | _ => false)
         | _ => false))).length
      decide (mkRat valid_count 1 ≥ pyMaxQ (mkRat 3 1) (mkRat (3 * slice.length) 10))

/-- The anchored pattern of `_is_wkt_geometry_column`: a geometry
keyword, optional whitespace, then an opening parenthesis,
case-insensitively. -/
def wktStartMatch (s : String) : Bool :=
  let u := pyUpper s
  ["POINT", "LINESTRING", "POLYGON", "MULTIPOINT", "MULTILINESTRING",
   "MULTIPOLYGON", "GEOMETRYCOLLECTION"].any (fun kw =>
    pyStartsWith u kw &&
    pyStartsWith (String.mk ((u.data.drop kw.data.length).dropWhile Char.isWhitespace)) "(")

def isWordChar (c : Char) : Bool :=
  c.isAlphanum || c = '_'

/-- The scan of `re.search` for `type=` followed by at least one word
character; on a bare `type=` the engine resumes one position later. -/
def findTypeWordAux : List Char → Option String
  | [] => none
  | c :: rest =>
    if isPrefixCh "type=".data (c :: rest) then
      let w := ((c :: rest).drop 5).takeWhile isWordChar
      if w.isEmpty then findTypeWordAux rest else some (String.mk w)
    else findTypeWordAux rest

/-- Case-insensitive `re.search` for `type=(\w+)`; the capture comes
back lowercased because the caller lowercases it anyway. -/
def findTypeWord (s : String) : Option String :=
  findTypeWordAux (pyLower s).data

/-- `GeographicDetector._is_wkt_geometry_column`. -/
def is_wkt_geometry_column (col_name data_type : String)
    (sample_values : List PyVal) : Bool :=
  let geometry_keywords := ["geometry", "geom", "shape", "wkt", "location"]
  if !containsAny col_name geometry_keywords then false
  else
    let data_type_upper := pyUpper data_type
    let is_valid_type := ["VARCHAR", "STRING", "TEXT", "STRUCT", "ROW"].any
      (fun t => strContains data_type_upper t)
    if !is_valid_type then false
    else if (strContains data_type_upper "STRUCT" || strContains data_type_upper "ROW")
        && strContains (pyLower data_type) "type"
        && strContains (pyLower data_type) "coordinates" then true
    else if sample_values.isEmpty then false
    else
      let slice := sample_values.take 10
      let valid_count := (slice.filter (fun v =>
        pyTruthy v &&
        (let val_str := pyStrip (pyStr v)
         wktStartMatch val_str ||
         (pyStartsWith val_str "\x7b" && strContains val_str "type="
            && strContains val_str "coordinates=" &&
          (match findTypeWord val_str with
           | some g => GEOMETRY_TYPES.contains (pyLower g)
           | none => false))))).length
      decide (mkRat valid_count 1 ≥ pyMaxQ (mkRat 3 1) (mkRat (3 * slice.length) 10))

/-- `GeographicDetector._is_distance_column`. -/
def is_distance_column (col_name _data_type : String) : Bool :=
  containsAny col_name
    ["km", "kilometer", "mile", "meter", "distance", "length", "total_km", "total"]

/-- `GeographicDetector._is_code_column`.  The uppercased value always
equals its own uppercase, matching the redundant source test. -/
def is_code_column (_col_name : String) (sample_values : List PyVal)
    (cardinality : Nat) : Bool :=
  if cardinality > 5 || sample_values.isEmpty then false
  else
    let slice := sample_values.take 5
    let code_pattern_count := (slice.filter (fun v =>
      pyTruthy v &&
      (let val_str := pyUpper (pyStr v)
       (strContains val_str "_" || val_str.data.any Char.isDigit) &&
       val_str = pyUpper val_str))).length
    decide (mkRat code_pattern_count 1 ≥ mkRat (6 * slice.length) 10)

/-- The unguarded sample comprehension shared by the latitude and
longitude checks: `float(val)` on a malformed value propagates. -/
def rangeSampleCount (lo hi : ℚ) : List PyVal → Nat → Except PyErr Nat
  | [], acc => Except.ok acc
  | v :: rest, acc =>
    if v = PyVal.vNone then rangeSampleCount lo hi rest acc
    else
      match pyFloat v with
      | Except.error e => Except.error e
      | Except.ok q =>
        rangeSampleCount lo hi rest
          (if decide (lo ≤ q) && decide (q ≤ hi) then acc + 1 else acc)

/-- The guarded min/max range test of the latitude and longitude
checks; ValueError and TypeError from `float` fall through to the
sample scan. -/
def minMaxInRange (lo hi : ℚ) (min_value max_value : PyVal) : Bool :=
  if min_value ≠ PyVal.vNone ∧ max_value ≠ PyVal.vNone then
    match pyFloat min_value, pyFloat max_value with
    | Except.ok a, Except.ok b =>
      decide (lo ≤ a) && decide (a ≤ hi) && decide (lo ≤ b) && decide (b ≤ hi)
    | _, _ => false
  else false

/-- `GeographicDetector._is_latitude_column`. -/
def is_latitude_column (col_name data_type : String)
    (sample_values : List PyVal) (min_value max_value : PyVal) : Except PyErr Bool :=
  let lat_patterns := ["lat", "latitude", "_lat", "lat_"]
  let has_lat_pattern := containsAny col_name lat_patterns
  let is_numeric := ["double", "float", "decimal", "real"].contains data_type
  if !is_numeric || !has_lat_pattern then Except.ok false
  else if minMaxInRange (mkRat (-90) 1) (mkRat 90 1) min_value max_value then Except.ok true
  else
    match rangeSampleCount (mkRat (-90) 1) (mkRat 90 1) (sample_values.take 10) 0 with
    | Except.error e => Except.error e
    | Except.ok n => Except.ok (decide (n ≥ 5))

/-- `GeographicDetector._is_longitude_column`. -/
def is_longitude_column (col_name data_type : String)
    (sample_values : List PyVal) (min_value max_value : PyVal) : Except PyErr Bool :=
  let lon_patterns := ["lon", "lng", "longitude", "_lon", "_lng", "lon_", "lng_"]
  let has_lon_pattern := containsAny col_name lon_patterns
  let is_numeric := ["double", "float", "decimal", "real"].contains data_type
  if !is_numeric || !has_lon_pattern then Except.ok false
  else if minMaxInRange (mkRat (-180) 1) (mkRat 180 1) min_value max_value then Except.ok true
  else
    match rangeSampleCount (mkRat (-180) 1) (mkRat 180 1) (sample_values.take 10) 0 with
    | Except.error e => Except.error e
    | Except.ok n => Except.ok (decide (n ≥ 5))

/-- `GeographicDetector._is_country_value`. -/
def is_country_value (db : CountryDB) (value : String) : Bool :=
  let val_lower := pyStrip (pyLower value)
  db.countries.contains val_lower
  || db.country_codes_alpha2.contains val_lower
  || db.country_codes_alpha3.contains val_lower
  || db.countries.any (fun country =>
      strContains country val_lower || strContains val_lower country)

/-- `GeographicDetector._is_country_column`. -/
def is_country_column (db : CountryDB) (col_name data_type : String)
    (sample_values : List PyVal) : Bool :=
  if !strContains col_name "country" then false
  else if !(["varchar", "string", "text"].contains data_type) then false
  else
    let match_count := ((sample_values.take 20).filter (fun v =>
      pyTruthy v && is_country_value db (pyStr v))).length
    decide (mkRat match_count 1
      ≥ pyMinQ (mkRat 10 1) (mkRat (5 * sample_values.length) 10))

/-- `GeographicDetector._looks_like_admin_column`. -/
def looks_like_admin_column (col_name : String) : Bool :=
  let admin_keywords := ["admin", "region", "area", "zone", "location", "place",
    "province", "state", "city", "town", "district", "county"]
  let exclude_keywords := ["type", "category", "feature", "class", "kind", "code",
    "id", "name", "description", "address", "street"]
  containsAny col_name admin_keywords && !containsAny col_name exclude_keywords

/-- One run of the `_count_place_matches` loop.  The floating
`match_count` only ever receives increments of 1 and 0.5, so it is kept
exactly in half-units (a cache hit on True and a fresh hit add 2 halves,
a timeout adds 1 half).  The last component instruments the model with
the values actually sent to the geocoder. -/
def cpmAux (geocode : String → GeoOutcome) :
    List PyVal → List (String × Bool) → Nat × List (String × Bool) × List String
  | [], cache => (0, cache, [])
  | v :: rest, cache =>
    if !pyTruthy v then cpmAux geocode rest cache
    else
      let val_str := pyStrip (pyStr v)
      match cache.lookup val_str with
      | some b =>
        let r := cpmAux geocode rest cache
        ((if b then r.1 + 2 else r.1), r.2.1, r.2.2)
      | none =>
        match geocode val_str with
        | GeoOutcome.found =>
          let r := cpmAux geocode rest ((val_str, true) :: cache)
          (r.1 + 2, r.2.1, val_str :: r.2.2)
        | GeoOutcome.notFound =>
          let r := cpmAux geocode rest ((val_str, false) :: cache)
          (r.1, r.2.1, val_str :: r.2.2)
        | GeoOutcome.timeout =>
          let r := cpmAux geocode rest ((val_str, true) :: cache)
          (r.1 + 1, r.2.1, val_str :: r.2.2)
        | GeoOutcome.failure =>
          let r := cpmAux geocode rest ((val_str, false) :: cache)
          (r.1, r.2.1, val_str :: r.2.2)

/-- Result of `_count_place_matches`: the `int(...)` truncated count,
the cache state, and the geocoder call log. -/
structure GeoRunResult where
  count : Nat
  cache : List (String × Bool)
  callLog : List String
deriving Repr

/-- `GeographicDetector._count_place_matches`; `int(match_count)`
truncates the half-unit accumulator, which is division by two. -/
def count_place_matches (geocode : String → GeoOutcome)
    (cache : List (String × Bool)) (sample_values : List PyVal) : GeoRunResult :=
  let r := cpmAux geocode (sample_values.take 10) cache
  { count := r.1 / 2, cache := r.2.1, callLog := r.2.2 }

/-- `GeographicDetector._detect_administrative_type`. -/
def detect_administrative_type (geocode : String → GeoOutcome)
    (cache : List (String × Bool)) (col_name : String)
    (sample_values : List PyVal) (cardinality : Nat) :
    Option String × List (String × Bool) × List String :=
  if containsAny col_name
      ["province", "state", "admin_level_2", "admin_level2", "admin_l2",
       "level_2", "level2"] then
    (some "state", cache, [])
  else if containsAny col_name
      ["city", "town", "municipality", "admin_level_3", "admin_level3",
       "admin_l3", "level_3", "level3"] then
    (some "city", cache, [])
  else if containsAny col_name
      ["district", "locality", "neighborhood", "neighbourhood",
       "admin_level_4", "admin_level4", "admin_l4", "level_4", "level4"] then
    (some "locality", cache, [])
  else if decide (10 ≤ cardinality) && decide (cardinality ≤ 200000)
      && looks_like_admin_column col_name then
    let r := count_place_matches geocode cache (sample_values.take 20)
    if decide (r.count ≥ 5) then
      (some (if cardinality < 500 then "state"
             else if cardinality < 50000 then "city"
             else "locality"),
       r.cache, r.callLog)
    else (none, r.cache, r.callLog)
  else (none, cache, [])

/-- `GeographicDetector.detect_semantic_type`.  The result carries the
geocode cache after the call; an uncaught exception is the `error`
branch. -/
def detect_semantic_type (env : DetectorEnv) (cache : List (String × Bool))
    (column_name data_type : String) (sample_values : List PyVal)
    (min_value max_value : PyVal) (cardinality : Nat) :
    Except PyErr (Option String × List (String × Bool)) :=
  let col_lower := pyLower column_name
  if containsAny col_lower ["day", "month", "year", "date", "time", "timestamp"] then
    Except.ok (none, cache)
  else if is_distance_column col_lower data_type then Except.ok (none, cache)
  else if strContains col_lower "address" && strContains col_lower "range" then
    Except.ok (none, cache)
  else if is_code_column col_lower sample_values cardinality then
    Except.ok (none, cache)
  else if is_geometry_type_column col_lower sample_values then
    Except.ok (some "geometry_type", cache)
  else if is_geojson_column env.jsonLoads col_lower data_type sample_values then
    Except.ok (some "geojson_geometry", cache)
  else if is_wkt_geometry_column col_lower data_type sample_values then
    Except.ok (some "wkt_geometry", cache)
  else
    match is_latitude_column col_lower data_type sample_values min_value max_value with
    | Except.error e => Except.error e
    | Except.ok true => Except.ok (some "latitude", cache)
    | Except.ok false =>
      match is_longitude_column col_lower data_type sample_values min_value max_value with
      | Except.error e => Except.error e
      | Except.ok true => Except.ok (some "longitude", cache)
      | Except.ok false =>
        if is_country_column env.db col_lower data_type sample_values then
          Except.ok (some "country", cache)
        else if ["varchar", "string", "text"].contains data_type then
          let r := detect_administrative_type env.geocode cache col_lower
            sample_values cardinality
          Except.ok (r.1, r.2.1)
        else Except.ok (none, cache)

/-! ## Metadata generator (`app/services/metadata_generator.py`)

`generate_metadata_for_table` against the metadata store, with the
warehouse client and the LLM naming chains as oracles. -/

/-- Per-column statistics delivered by the warehouse client
(`stats.get(column_name, {})` defaults on a missing column). -/
structure ColStats where
  cardinality : Nat := 0
  min_value : Option PyVal := none
  max_value : Option PyVal := none
  avg_value : Option ℚ := none
  null_count : Nat := 0
  null_percentage : ℚ := 0
deriving Repr

/-- The metadata store plus the process-local effects the generator
produces: saved table records (keyed by `catalog.schema.table`), saved
column records, and the fire-and-forget relationship-detection tasks
started at the end of a successful run. -/
structure MetaStore where
  tables : List (String × TableMetadata)
  columns : List ColumnMetadata
  background_tasks : List String
deriving Repr

/-- `dynamodb_service.save_column_metadata`: put_item overwrites the
record keyed by (table, column). -/
def save_column_metadata (st : MetaStore) (c : ColumnMetadata) : MetaStore :=
  { st with
      columns :=
        (st.columns.filter (fun c₀ =>
          !(c₀.catalog_schema_table = c.catalog_schema_table
            && c₀.column_name = c.column_name))) ++ [c] }

/-- `dynamodb_service.save_table_metadata`: put_item overwrites the
record keyed by the table identifier. -/
def save_table_metadata (st : MetaStore) (tm : TableMetadata) : MetaStore :=
  { st with
      tables :=
        (st.tables.filter (fun p => !(p.1 = tm.catalog_schema_table)))
          ++ [(tm.catalog_schema_table, tm)] }

/-- External collaborators of one `generate_metadata_for_table` run:
the Starburst client (schema, row count, statistics, samples) and the
alias/description generation chains, whose outputs depend on external
LLM services and are therefore oracles keyed by column name. -/
structure GeneratorEnv where
  detector : DetectorEnv
  get_table_schema : Option (List (String × String))
  get_row_count : Nat
  get_column_statistics : String → Option ColStats
  get_sample_values : String → List PyVal
  gen_aliases : String → List String
  gen_description : String → String

/-- The step-5 per-column loop of `generate_metadata_for_table`: runs
the classifier and the geographic detector, asks the naming oracles,
and saves one `ColumnMetadata` per schema entry.  An exception from the
detector stops the loop; the records already saved persist, matching
the Python writes that happened before the raise. -/
def enrichColumnsLoop (env : GeneratorEnv) (cst : String) (row_count : Nat) :
    List (String × String) → MetaStore → List (String × Bool) →
    Option PyErr × MetaStore × List (String × Bool)
  | [], st, cache => (none, st, cache)
  | (column_name, data_type) :: rest, st, cache =>
    let col_stats := (env.get_column_statistics column_name).getD {}
    let cardinality := col_stats.cardinality
    let sample_values := env.get_sample_values column_name
    let column_type := detect_column_type column_name data_type cardinality row_count
    match detect_semantic_type env.detector cache column_name data_type sample_values
        (col_stats.min_value.getD PyVal.vNone) (col_stats.max_value.getD PyVal.vNone)
        cardinality with
    | Except.error e => (some e, st, cache)
    | Except.ok (semantic_type, cache') =>
      let cm : ColumnMetadata :=
        { catalog_schema_table := cst
          column_name := column_name
          data_type := data_type
          column_type := column_type
          semantic_type := semantic_type
          aliases := env.gen_aliases column_name
          description := env.gen_description column_name
          min_value := col_stats.min_value
          max_value := col_stats.max_value
          avg_value := col_stats.avg_value
          cardinality := cardinality
          null_count := col_stats.null_count
          null_percentage := col_stats.null_percentage
          sample_values := sample_values }
      enrichColumnsLoop env cst row_count rest (save_column_metadata st cm) cache'

/-- `MetadataGenerator.generate_metadata_for_table`.  Returns the
success flag together with the store and the detector cache after the
call.  The `force_refresh=False` guard answers True before any
warehouse call, write, or background-task start when the table record
already exists. -/
def generate_metadata_for_table (env : GeneratorEnv) (now : String)
    (table_name catalog schema : String) (force_refresh : Bool)
    (st : MetaStore) (cache : List (String × Bool)) :
    Bool × MetaStore × List (String × Bool) :=
  let catalog_schema_table := catalog ++ "." ++ schema ++ "." ++ table_name
  if !force_refresh && (st.tables.lookup catalog_schema_table).isSome then
    (true, st, cache)
  else
    match env.get_table_schema with
    | none => (false, st, cache)
    | some table_schema =>
      if table_schema.isEmpty then (false, st, cache)
      else
        let row_count := env.get_row_count
        match enrichColumnsLoop env catalog_schema_table row_count table_schema st cache with
        | (some _, st', cache') => (false, st', cache')
        | (none, st', cache') =>
          let table_metadata : TableMetadata :=
            { catalog_schema_table := catalog_schema_table
              last_updated := now
              row_count := row_count
              column_count := table_schema.length
              schema_status := SchemaStatus.current }
          let st₂ := save_table_metadata st' table_metadata
          let st₃ := { st₂ with
            background_tasks :=
              st₂.background_tasks ++ [catalog ++ "#" ++ schema ++ "#" ++ table_name] }
          (true, st₃, cache')

/-! ## Concrete instances used by the verification -/

/-- The boolean recorded in the geocode cache for a freshly looked-up
value: True on a hit or a timeout, False otherwise. -/
def geocodeCacheValue (geocode : String → GeoOutcome) (k : String) : Bool :=
  match geocode k with
  | GeoOutcome.found => true
  | GeoOutcome.timeout => true
  | GeoOutcome.notFound => false
  | GeoOutcome.failure => false

/-- A relationship proposed while comparing table a against table b. -/
def relAtoB : RelationshipProposal :=
  { source_table := "cat.sch.a", source_column := "x"
    target_table := "cat.sch.b", target_column := "y"
    relationship_type := "foreign_key", confidence := mkRat 9 10
    reasoning := "x references y" }

/-- The same pair proposed independently from the other side, with
different reasoning text and confidence. -/
def relBtoA : RelationshipProposal :=
  { source_table := "cat.sch.b", source_column := "y"
    target_table := "cat.sch.a", target_column := "x"
    relationship_type := "foreign_key", confidence := mkRat 8 10
    reasoning := "y is referenced by x" }

/-- An ordinary measurement column of a table. -/
def speedColumn : ColumnMetadata :=
  { catalog_schema_table := "cat.sch.roads", column_name := "speed"
    data_type := "double", column_type := "measure" }

/-- A separately stored statistical helper row for the same measure. -/
def speedStatsColumn : ColumnMetadata :=
  { catalog_schema_table := "cat.sch.roads", column_name := "speed_min_value"
    data_type := "double", column_type := "measure" }

/-- Detector collaborators that answer nothing; the inputs under study
never reach them. -/
def trivialDetectorEnv : DetectorEnv :=
  { geocode := fun _ => GeoOutcome.notFound
    jsonLoads := fun _ => none
    db := { countries := [], country_codes_alpha2 := [], country_codes_alpha3 := [] } }

/-- A geocoder that times out on every value. -/
def geoTimeoutOracle : String → GeoOutcome := fun _ => GeoOutcome.timeout

/-- A store already holding the metadata record of `cat.sch.tbl`. -/
def witnessStore : MetaStore :=
  { tables := [("cat.sch.tbl",
      { catalog_schema_table := "cat.sch.tbl", last_updated := "2026-01-01",
        enrichment_status := EnrichmentStatus.completed })]
    columns := []
    background_tasks := [] }

/-- Generator collaborators for the idempotent re-entry check; the
early return fires before any of them is consulted. -/
def witnessGenEnv : GeneratorEnv :=
  { detector := trivialDetectorEnv
    get_table_schema := none
    get_row_count := 0
    get_column_statistics := fun _ => none
    get_sample_values := fun _ => []
    gen_aliases := fun _ => []
    gen_description := fun _ => "" }

/-! ## Theorems -/

lemma string_data_append (a b : String) : (a ++ b).data = a.data ++ b.data := rfl

lemma str_append_ne_empty (a b : String) (hb : ¬ b.data = []) : ¬ (a ++ b) = "" := by
  intro h
  have h2 : (a ++ b).data = [] := by rw [h]
  rw [string_data_append] at h2
  exact hb (List.append_eq_nil.mp h2).2

lemma ite_ne_empty (c : Prop) [Decidable c] (a b : String)
    (ha : a ≠ "") (hb : b ≠ "") : (if c then a else b) ≠ "" := by
  split <;> assumption

lemma class_type_description_ne_empty (name : String) (card : Option Nat) :
    class_type_description name card ≠ "" := by
  unfold class_type_description
  cases card with
  | none => exact str_append_ne_empty _ _ (by decide)
  | some c =>
    exact ite_ne_empty _ _ _
      (str_append_ne_empty _ _ (by decide)) (str_append_ne_empty _ _ (by decide))

lemma dedup_take_ne_nil (x : String) (rest : List String) (h : wordCountWs x ≤ 6) :
    (dedupKeepAux (x :: rest) []).take 5 ≠ [] := by
  rw [dedupKeepAux]
  have hc : (!List.contains [] x && decide (wordCountWs x ≤ 6)) = true := by simp [h]
  rw [if_pos hc]
  simp

lemma lookup_cons_split (k a : String) (b : Bool) (l : List (String × Bool)) :
    ((a, b) :: l).lookup k = if k = a then some b else l.lookup k := by
  simp [List.lookup]
  split <;> simp_all

lemma cpmAux_log_fresh (geocode : String → GeoOutcome) :
    ∀ (vs : List PyVal) (cache : List (String × Bool)) (k : String),
      k ∈ (cpmAux geocode vs cache).2.2 → cache.lookup k = none := by
  intro vs
  induction vs with
  | nil => intro cache k hk; simp [cpmAux] at hk
  | cons v rest ih =>
    intro cache k hk
    cases ht : pyTruthy v with
    | false => rw [cpmAux, ht] at hk; exact ih _ k hk
    | true =>
      rcases hl : cache.lookup (pyStrip (pyStr v)) with _ | b
      · rcases hg : geocode (pyStrip (pyStr v)) with _ | _ | _ | _ <;>
        · rw [cpmAux, ht] at hk
          simp only [Bool.not_true, Bool.false_eq_true, if_false, hl, hg] at hk
          rcases List.mem_cons.mp hk with rfl | hk'
          · exact hl
          · have h2 := ih _ k hk'
            rw [lookup_cons_split] at h2
            by_cases hkv : k = pyStrip (pyStr v)
            · rw [if_pos hkv] at h2; exact absurd h2 (by simp)
            · rwa [if_neg hkv] at h2
      · rw [cpmAux, ht] at hk
        simp only [Bool.not_true, Bool.false_eq_true, if_false, hl] at hk
        exact ih _ k hk

lemma cpmAux_cache_preserved (geocode : String → GeoOutcome) :
    ∀ (vs : List PyVal) (cache : List (String × Bool)) (k : String) (b : Bool),
      cache.lookup k = some b → (cpmAux geocode vs cache).2.1.lookup k = some b := by
  intro vs
  induction vs with
  | nil => intro cache k b hb; simpa [cpmAux] using hb
  | cons v rest ih =>
    intro cache k b hb
    cases ht : pyTruthy v with
    | false => rw [cpmAux, ht]; exact ih _ k b hb
    | true =>
      rcases hl : cache.lookup (pyStrip (pyStr v)) with _ | b'
      · have hkv : k ≠ pyStrip (pyStr v) := by
          intro hkv; rw [hkv, hl] at hb; exact Option.noConfusion hb
        rcases hg : geocode (pyStrip (pyStr v)) with _ | _ | _ | _ <;>
        · rw [cpmAux, ht]
          simp only [Bool.not_true, Bool.false_eq_true, if_false, hl, hg]
          refine ih _ k b ?_
          rw [lookup_cons_split, if_neg hkv]
          exact hb
      · rw [cpmAux, ht]
        simp only [Bool.not_true, Bool.false_eq_true, if_false, hl]
        exact ih _ k b hb

lemma cpmAux_log_nodup (geocode : String → GeoOutcome) :
    ∀ (vs : List PyVal) (cache : List (String × Bool)),
      (cpmAux geocode vs cache).2.2.Nodup := by
  intro vs
  induction vs with
  | nil => intro cache; simp [cpmAux]
  | cons v rest ih =>
    intro cache
    cases ht : pyTruthy v with
    | false => rw [cpmAux, ht]; exact ih _
    | true =>
      rcases hl : cache.lookup (pyStrip (pyStr v)) with _ | b
      · rcases hg : geocode (pyStrip (pyStr v)) with _ | _ | _ | _ <;>
        · rw [cpmAux, ht]
          simp only [Bool.not_true, Bool.false_eq_true, if_false, hl, hg]
          refine List.Nodup.cons ?_ (ih _)
          intro hmem
          have h2 := cpmAux_log_fresh geocode rest _ _ hmem
          rw [lookup_cons_split, if_pos rfl] at h2
          exact Option.noConfusion h2
      · rw [cpmAux, ht]
        simp only [Bool.not_true, Bool.false_eq_true, if_false, hl]
        exact ih _

lemma cpmAux_geocoded_cached (geocode : String → GeoOutcome) :
    ∀ (vs : List PyVal) (cache : List (String × Bool)) (k : String),
      k ∈ (cpmAux geocode vs cache).2.2 →
      (cpmAux geocode vs cache).2.1.lookup k = some (geocodeCacheValue geocode k) := by
  intro vs
  induction vs with
  | nil => intro cache k hk; simp [cpmAux] at hk
  | cons v rest ih =>
    intro cache k hk
    cases ht : pyTruthy v with
    | false => rw [cpmAux, ht] at hk ⊢; exact ih _ k hk
    | true =>
      rcases hl : cache.lookup (pyStrip (pyStr v)) with _ | b
      · rcases hg : geocode (pyStrip (pyStr v)) with _ | _ | _ | _ <;>
        · rw [cpmAux, ht] at hk ⊢
          simp only [Bool.not_true, Bool.false_eq_true, if_false, hl, hg] at hk ⊢
          rcases List.mem_cons.mp hk with rfl | hk'
          · refine cpmAux_cache_preserved geocode rest _ _ _ ?_
            rw [lookup_cons_split, if_pos rfl, geocodeCacheValue, hg]
          · exact ih _ k hk'
      · rw [cpmAux, ht] at hk ⊢
        simp only [Bool.not_true, Bool.false_eq_true, if_false, hl] at hk ⊢
        exact ih _ k hk

lemma importColumnFilter_snd_aux (cols : List ColumnMetadata)
    (d : List (String × ColumnMetadata)) (a : List ColumnMetadata) :
    (cols.foldl (fun acc col => ((col.column_name, col) :: acc.1, acc.2 ++ [col])) (d, a)).2
      = a ++ cols := by
  induction cols generalizing d a with
  | nil => simp
  | cons c rest ih => simp [List.foldl, ih]

/-- C1: `store_relationships_batch` does not deduplicate by the §3
canonical key — the pair discovered as a→b and independently as b→a is
stored as two RelationshipRecords carrying the same canonical key, not
one, refuting the claim at this batch. -/
theorem store_batch_no_dedup_counterexample :
    record_canonical_key (mkStoredItem 0 relAtoB)
        = record_canonical_key (mkStoredItem 1 relBtoA) ∧
    ((store_relationships_batch 0 [relAtoB, relBtoA]).1.filter
        (fun it => record_canonical_key it
          = record_canonical_key (mkStoredItem 0 relAtoB))).length = 2 ∧
    ¬(((store_relationships_batch 0 [relAtoB, relBtoA]).1.filter
        (fun it => record_canonical_key it
          = record_canonical_key (mkStoredItem 0 relAtoB))).length = 1) := by
  decide

/-- C1 (amended): `store_relationships_batch` performs no
deduplication at all — every proposal of the batch becomes its own
stored RelationshipRecord under a fresh unique relationship id, and the
reported count equals the batch length. -/
theorem store_batch_stores_every_proposal (next_id : Nat)
    (rels : List RelationshipProposal) :
    (store_relationships_batch next_id rels).1.length = rels.length ∧
    (store_relationships_batch next_id rels).2 = rels.length ∧
    (store_relationships_batch next_id rels).1.map (fun r => r.relationship_id)
      = List.range' next_id rels.length := by
  unfold store_relationships_batch
  induction rels generalizing next_id with
  | nil => exact ⟨rfl, rfl, rfl⟩
  | cons r rest ih =>
    have h := ih (next_id + 1)
    refine ⟨?_, ?_, ?_⟩ <;>
      simp [storeBatchAux, mkStoredItem, h.1, h.2.1, h.2.2, List.range']

/-- C2: the sweep starts an axis exactly when that axis is NOT_STARTED
or FAILED and its retry count is strictly below MAX_RETRIES (3) — so
never while IN_PROGRESS and never again once the count reaches the
ceiling — and relationship detection and Neptune import additionally
require the enrichment axis to be COMPLETED. -/
theorem sweep_axis_start_rules :
    (∀ t : TableMetadata, should_process_enrichment t = true ↔
      ((t.enrichment_status = EnrichmentStatus.not_started
          ∨ t.enrichment_status = EnrichmentStatus.failed)
        ∧ t.enrichment_retry_count < MAX_RETRIES)) ∧
    (∀ t : TableMetadata, should_process_relationships t = true ↔
      (t.enrichment_status = EnrichmentStatus.completed
        ∧ (t.relationship_detection_status = RelationshipDetectionStatus.not_started
            ∨ t.relationship_detection_status = RelationshipDetectionStatus.failed)
        ∧ t.relationship_retry_count < MAX_RETRIES)) ∧
    (∀ t : TableMetadata, should_process_neptune t = true ↔
      (t.enrichment_status = EnrichmentStatus.completed
        ∧ (t.neptune_import_status = NeptuneImportStatus.not_imported
            ∨ t.neptune_import_status = NeptuneImportStatus.failed)
        ∧ t.neptune_retry_count < MAX_RETRIES)) := by
  refine ⟨fun t => ?_, fun t => ?_, fun t => ?_⟩
  · cases h : t.enrichment_status <;>
      simp [should_process_enrichment, h, MAX_RETRIES]
  · cases he : t.enrichment_status <;>
      cases hr : t.relationship_detection_status <;>
        simp [should_process_relationships, he, hr, MAX_RETRIES]
  · cases he : t.enrichment_status <;>
      cases hn : t.neptune_import_status <;>
        simp [should_process_neptune, he, hn, MAX_RETRIES]

/-- C3: `MetadataGenerator` has no `generate_metadata` method, so the
worker enrichment pass always takes the exception branch: it returns
False and leaves the table FAILED with the retry count incremented by
one and a truncated error text recorded, for every table. -/
theorem worker_enrichment_always_fails :
    metadataGeneratorMethods.contains "generate_metadata" = false ∧
    ∀ (now cst : String) (tm : TableMetadata),
      (process_enrichment now cst tm).1 = false ∧
      (process_enrichment now cst tm).2.enrichment_status = EnrichmentStatus.failed ∧
      (process_enrichment now cst tm).2.enrichment_retry_count
        = tm.enrichment_retry_count + 1 ∧
      ∃ e, (process_enrichment now cst tm).2.enrichment_error = some (truncate500 e) := by
  refine ⟨by decide, fun now cst tm => ?_⟩
  unfold process_enrichment
  have hm : metadataGeneratorMethods.contains "generate_metadata" = false := by decide
  simp only [hm, Bool.false_eq_true, if_false]
  split
  · exact ⟨rfl, rfl, rfl, ⟨_, rfl⟩⟩
  · exact ⟨rfl, rfl, rfl, ⟨_, rfl⟩⟩

/-- C4: against the claim that the geographic detector never raises,
`detect_semantic_type` on a double-typed column named lat whose sample
list holds the non-numeric string abc propagates a ValueError out of
the unguarded `float(val)` in the latitude sample scan. -/
theorem detector_raises_on_nonnumeric_lat_sample :
    detect_semantic_type trivialDetectorEnv [] "lat" "double" [PyVal.vStr "abc"]
        PyVal.vNone PyVal.vNone 0
      = Except.error (PyErr.valueError "could not convert string to float: abc") := by
  decide

/-- C5: the rule-based alias stage is not a guaranteed floor — a
seven-token column name matching no pattern rule expands to a
seven-word base alias, which the six-word dedup filter drops, leaving
an empty alias list. -/
theorem rule_based_alias_floor_counterexample :
    generate_aliases_rule_based "a_b_c_d_e_f_g" [] = [] := by decide

/-- C5 (amended): the template-based description is always non-empty
and the rule-based alias stage never errors, returns at most five
aliases, and returns at least one alias whenever the expanded base
alias stays within the six-word filter. -/
theorem rule_based_floor_amended :
    (∀ name dt tags card, generate_description_template_based name dt tags card ≠ "") ∧
    (∀ name tags, wordCountWs (joinWith " " ((splitNameParts name).map expandPart)) ≤ 6 →
      generate_aliases_rule_based name tags ≠ []) ∧
    (∀ name tags, (generate_aliases_rule_based name tags).length ≤ 5) := by
  refine ⟨fun name dt tags card => ?_, fun name tags h => ?_, fun name tags => ?_⟩
  · unfold generate_description_template_based gen_description_template_core
    repeat' first
      | apply ite_ne_empty
      | exact class_type_description_ne_empty name card
      | decide
      | exact str_append_ne_empty _ _ (by decide)
  · unfold generate_aliases_rule_based
    exact dedup_take_ne_nil _ _ h
  · unfold generate_aliases_rule_based
    exact List.length_take_le 5 _

/-- C5 witness: the amended floor evaluated at concrete columns. -/
theorem rule_based_floor_amended_witness :
    generate_description_template_based "flag" "varchar" [] none ≠ "" ∧
    generate_aliases_rule_based "total_kms" [] ≠ [] ∧
    (generate_aliases_rule_based "total_kms" []).length ≤ 5 :=
  ⟨rule_based_floor_amended.1 "flag" "varchar" [] none,
   rule_based_floor_amended.2.1 "total_kms" [] (by decide),
   rule_based_floor_amended.2.2 "total_kms" []⟩

/-- C6: for a non-timestamp column whose name matches an id-like token
and whose row count is positive, a uniqueness ratio above 0.8 yields
the identifier class, while a ratio below 0.8 with cardinality below
1000 yields dimension, never identifier. -/
theorem classifier_id_uniqueness_rules (column_name data_type : String)
    (cardinality row_count : Nat)
    (hts : has_timestamp_type (pyLower data_type) = false)
    (hid : containsAny (pyLower column_name) IDENTIFIER_PATTERNS = true)
    (hrow : 0 < row_count) :
    (mkRat cardinality row_count > mkRat 8 10 →
      detect_column_type column_name data_type cardinality row_count = "identifier") ∧
    (mkRat cardinality row_count < mkRat 8 10 → cardinality < 1000 →
      detect_column_type column_name data_type cardinality row_count = "dimension") := by
  constructor
  · intro hu
    have hpi : is_primary_identifier (pyLower column_name) cardinality row_count = true := by
      unfold is_primary_identifier
      simp [hid, hrow, hu]
    simp [detect_column_type, hts, hpi]
  · intro hu hc
    have hpi : is_primary_identifier (pyLower column_name) cardinality row_count = false := by
      unfold is_primary_identifier
      simp [hid, hrow, hc, asymm hu]
      omega
    have hfk : is_foreign_key_dimension (pyLower column_name) cardinality row_count = true := by
      unfold is_foreign_key_dimension
      simp [hid, hrow, hu, hc]
    simp [detect_column_type, hts, hpi, hfk]

/-- C6 witness: user_id over bigint classifies as identifier at
uniqueness 0.95 and as dimension at uniqueness 0.2 with cardinality
50. -/
theorem classifier_id_uniqueness_rules_witness :
    detect_column_type "user_id" "bigint" 95 100 = "identifier" ∧
    detect_column_type "user_id" "bigint" 50 250 = "dimension" :=
  ⟨(classifier_id_uniqueness_rules "user_id" "bigint" 95 100
      (by decide) (by decide) (by decide)).1 (by decide),
   (classifier_id_uniqueness_rules "user_id" "bigint" 50 250
      (by decide) (by decide) (by decide)).2 (by decide) (by decide)⟩

/-- C7: a geocoder timeout is cached as True, so a later invocation
that hits the cache counts the value as a full match (1), not the
partial 0.5 the claim requires; with a single sample the first run
truncates to 0 while the cached rerun reports 1 without calling the
geocoder. -/
theorem place_match_timeout_counterexample :
    (count_place_matches geoTimeoutOracle [] [PyVal.vStr "X"]).count = 0 ∧
    (count_place_matches geoTimeoutOracle [] [PyVal.vStr "X"]).cache = [("X", true)] ∧
    (count_place_matches geoTimeoutOracle [("X", true)] [PyVal.vStr "X"]).count = 1 ∧
    (count_place_matches geoTimeoutOracle [("X", true)] [PyVal.vStr "X"]).callLog = [] ∧
    ¬((count_place_matches geoTimeoutOracle [("X", true)] [PyVal.vStr "X"]).count = 0) := by
  decide

/-- C7 (amended): every geocoded value is cached by input value and a
cached value is never geocoded again (also not twice within one run);
a timeout never raises, adds 0.5 to the floating count of the
invocation where it happens, but records the value as a successful
(True) match, so later invocations count it as a full match. -/
theorem place_match_cache_discipline (geocode : String → GeoOutcome)
    (cache : List (String × Bool)) (sample_values : List PyVal) :
    (∀ k, k ∈ (count_place_matches geocode cache sample_values).callLog →
      cache.lookup k = none) ∧
    (count_place_matches geocode cache sample_values).callLog.Nodup ∧
    (∀ k, k ∈ (count_place_matches geocode cache sample_values).callLog →
      (count_place_matches geocode cache sample_values).cache.lookup k
        = some (geocodeCacheValue geocode k)) ∧
    (∀ k, geocode k = GeoOutcome.timeout →
      k ∈ (count_place_matches geocode cache sample_values).callLog →
      (count_place_matches geocode cache sample_values).cache.lookup k = some true) := by
  refine ⟨fun k hk => cpmAux_log_fresh geocode _ _ k hk,
    cpmAux_log_nodup geocode _ _,
    fun k hk => cpmAux_geocoded_cached geocode _ _ k hk,
    fun k hg hk => ?_⟩
  have h := cpmAux_geocoded_cached geocode _ _ k hk
  rwa [geocodeCacheValue, hg] at h

/-- C7 witness: the cache discipline evaluated on the timing-out
geocoder at the value X. -/
theorem place_match_cache_discipline_witness :
    ([] : List (String × Bool)).lookup "X" = none ∧
    (count_place_matches geoTimeoutOracle [] [PyVal.vStr "X"]).cache.lookup "X"
      = some true :=
  ⟨(place_match_cache_discipline geoTimeoutOracle [] [PyVal.vStr "X"]).1 "X" (by decide),
   (place_match_cache_discipline geoTimeoutOracle [] [PyVal.vStr "X"]).2.2.2 "X"
     rfl (by decide)⟩

/-- C8: the step-3 filter of `import_table_to_neptune` appends every
stored column to non stats columns, so the exported column-node set is
all stored columns — a statistical helper row such as speed min value
gets its own node, contradicting the documented exclusion. -/
theorem neptune_import_keeps_stats_columns :
    (∀ cols : List ColumnMetadata, (importColumnFilter cols).2 = cols) ∧
    import_created_column_nodes (fun _ => true) [speedColumn, speedStatsColumn]
      = ["speed", "speed_min_value"] := by
  constructor
  · intro cols
    have h := importColumnFilter_snd_aux cols [] []
    simpa [importColumnFilter] using h
  · decide

/-- C9: when a TableMetadata record already exists,
`generate_metadata_for_table` with force_refresh=False returns True and
leaves the store — table records, column records, background tasks —
and the detector cache untouched. -/
theorem generate_metadata_idempotent_reentry (env : GeneratorEnv)
    (now table_name catalog schema : String) (st : MetaStore)
    (cache : List (String × Bool))
    (h : (st.tables.lookup (catalog ++ "." ++ schema ++ "." ++ table_name)).isSome
      = true) :
    generate_metadata_for_table env now table_name catalog schema false st cache
      = (true, st, cache) := by
  unfold generate_metadata_for_table
  simp [h]

/-- C9 witness: re-entry on a store that already holds cat.sch.tbl. -/
theorem generate_metadata_idempotent_reentry_witness :
    generate_metadata_for_table witnessGenEnv "2026-01-02" "tbl" "cat" "sch" false
        witnessStore []
      = (true, witnessStore, []) :=
  generate_metadata_idempotent_reentry witnessGenEnv "2026-01-02" "tbl" "cat" "sch"
    witnessStore [] (by decide)

/-- C10: `pad_embedding_to_2048` errors exactly on inputs whose length
differs from 1536, and on a 1536-entry input returns the input followed
by 512 zeros: length 2048, first 1536 entries the input in order, last
512 entries zero. -/
theorem pad_embedding_spec (l : List ℚ) :
    ((pad_embedding_to_2048 l).isOk = true ↔ l.length = 1536) ∧
    (l.length = 1536 →
      pad_embedding_to_2048 l = Except.ok (l ++ List.replicate 512 (0 : ℚ)) ∧
      (l ++ List.replicate 512 (0 : ℚ)).length = 2048 ∧
      (l ++ List.replicate 512 (0 : ℚ)).take 1536 = l ∧
      (l ++ List.replicate 512 (0 : ℚ)).drop 1536 = List.replicate 512 (0 : ℚ)) := by
  unfold pad_embedding_to_2048
  by_cases h : l.length = 1536
  · rw [if_neg (by omega)]
    refine ⟨iff_of_true rfl h,
      fun _ => ⟨rfl, ?_, List.take_left' h, List.drop_left' h⟩⟩
    rw [List.length_append, List.length_replicate, h]
  · rw [if_pos (by omega)]
    exact ⟨iff_of_false (fun hh => Bool.noConfusion hh) h, fun hh => absurd hh h⟩

/-- C10 witness: padding a concrete 1536-entry embedding. -/
theorem pad_embedding_spec_witness :
    pad_embedding_to_2048 (List.replicate 1536 (0 : ℚ))
      = Except.ok (List.replicate 1536 (0 : ℚ) ++ List.replicate 512 (0 : ℚ)) :=
  ((pad_embedding_spec (List.replicate 1536 (0 : ℚ))).2 (by rw [List.length_replicate])).1

end SemanticLayer
